import Mathlib

/-!
Shallow embedding of the device-behavior layer of
`mirte_telemetrix/scripts/ROS_telemetrix_aio_api.py`: rate-governed sensor
publishing, keypad decoding and debouncing, the three H-bridge motor drivers
(PP, DP, DDP), the SSD1306 OLED flush protocol with its latched failure flag,
and the on-demand pin-value service.  Board calls are modelled as explicit
`Action` events; Python floats are modelled exactly as rationals and Python
`int()` truncation as `pyInt`.
-/

namespace MirteTelemetrix

/-- Truncation toward zero, the behavior of Python `int()` on a number. -/
def pyInt (q : ℚ) : ℤ :=
  if 0 ≤ q then ⌊q⌋ else ⌈q⌉

/-- A board call issued by a motor driver: pin-mode configuration
(`set_pin_mode_analog_output` / `set_pin_mode_digital_output`) or a pin write
(`analog_write` / `digital_write`). -/
inductive Action where
  | set_pin_mode_analog_output (pin : ℕ)
  | set_pin_mode_digital_output (pin : ℕ)
  | analog_write (pin : ℕ) (value : ℤ)
  | digital_write (pin : ℕ) (value : ℤ)
  deriving DecidableEq, Repr

/-- Whether the action is a pin-mode configuration call. -/
def Action.isModeSet : Action → Bool
  | Action.set_pin_mode_analog_output _ => true
  | Action.set_pin_mode_digital_output _ => true
  | _ => false

/-- Shared motor state of class `Motor`: `prev_motor_speed` starts at 0 and
`initialized` at `False`. -/
structure MotorState where
  prev_motor_speed : ℤ
  initialized : Bool
  deriving DecidableEq, Repr

/-- The fresh state built by `Motor.__init__`. -/
def Motor.initState : MotorState := ⟨0, false⟩

/-- Duty value `int(min(speed, 100) / 100.0 * max_pwm)` used by the forward
branches (and, on `-speed` or `abs(speed)`, by the reverse branches). -/
def scaledDuty (magnitude : ℤ) (maxPwm : ℤ) : ℤ :=
  pyInt ((min magnitude 100 : ℤ) / 100 * (maxPwm : ℚ))

/-- Duty value `int(max_pwm - min(abs(speed), 100) / 100.0 * max_pwm)` used by
the DP reverse branch. -/
def invertedDuty (speed : ℤ) (maxPwm : ℤ) : ℤ :=
  pyInt ((maxPwm : ℚ) - (min |speed| 100 : ℤ) / 100 * (maxPwm : ℚ))

section Motors

/-- Pin assignment of a PP motor: two PWM-capable pins. -/
structure PPPins where
  p1 : ℕ
  p2 : ℕ
  deriving DecidableEq, Repr

/-- Model of `PPMotor.init_motors`: on the first non-zero speed both pins are switched
to analog-output mode, in an order depending on the sign of the speed. -/
def PPMotor.init_motors (pins : PPPins) (s : MotorState) (speed : ℤ) :
    MotorState × List Action :=
  if !s.initialized then
    ({ s with initialized := true },
      (if speed > 0 then
        [Action.set_pin_mode_analog_output pins.p2,
         Action.set_pin_mode_analog_output pins.p1]
       else []) ++
      (if speed < 0 then
        [Action.set_pin_mode_analog_output pins.p1,
         Action.set_pin_mode_analog_output pins.p2]
       else []))
  else (s, [])

/-- Model of `PPMotor.set_speed`: idempotent guard, then the idle / forward / reverse
write sequence. -/
def PPMotor.set_speed (pins : PPPins) (maxPwm : ℤ) (s : MotorState) (speed : ℤ) :
    MotorState × List Action :=
  if s.prev_motor_speed ≠ speed then
    if speed = 0 then
      ({ s with prev_motor_speed := speed },
        [Action.analog_write pins.p2 0, Action.analog_write pins.p1 0])
    else if speed > 0 then
      let r := PPMotor.init_motors pins s speed
      ({ r.1 with prev_motor_speed := speed },
        r.2 ++ [Action.analog_write pins.p2 0,
                Action.analog_write pins.p1 (scaledDuty speed maxPwm)])
    else
      let r := PPMotor.init_motors pins s speed
      ({ r.1 with prev_motor_speed := speed },
        r.2 ++ [Action.analog_write pins.p1 0,
                Action.analog_write pins.p2 (scaledDuty (-speed) maxPwm)])
  else (s, [])

/-- Pin assignment of a DP motor: one PWM pin and one digital direction pin. -/
structure DPPins where
  p1 : ℕ
  d1 : ℕ
  deriving DecidableEq, Repr

/-- Model of `DPMotor.init_motors`: lazy one-shot mode configuration, mixing the
digital-output and analog-output mode calls per pin role, ordered by sign. -/
def DPMotor.init_motors (pins : DPPins) (s : MotorState) (speed : ℤ) :
    MotorState × List Action :=
  if !s.initialized then
    ({ s with initialized := true },
      (if speed > 0 then
        [Action.set_pin_mode_digital_output pins.d1,
         Action.set_pin_mode_analog_output pins.p1]
       else []) ++
      (if speed < 0 then
        [Action.set_pin_mode_analog_output pins.p1,
         Action.set_pin_mode_digital_output pins.d1]
       else []))
  else (s, [])

/-- Model of `DPMotor.set_speed`: idle drives the direction pin low and PWM to 0,
forward keeps direction low with the scaled duty, reverse drives direction
high with the inverted duty curve. -/
def DPMotor.set_speed (pins : DPPins) (maxPwm : ℤ) (s : MotorState) (speed : ℤ) :
    MotorState × List Action :=
  if s.prev_motor_speed ≠ speed then
    if speed = 0 then
      ({ s with prev_motor_speed := speed },
        [Action.digital_write pins.d1 0, Action.analog_write pins.p1 0])
    else if speed > 0 then
      let r := DPMotor.init_motors pins s speed
      ({ r.1 with prev_motor_speed := speed },
        r.2 ++ [Action.digital_write pins.d1 0,
                Action.analog_write pins.p1 (scaledDuty speed maxPwm)])
    else
      let r := DPMotor.init_motors pins s speed
      ({ r.1 with prev_motor_speed := speed },
        r.2 ++ [Action.digital_write pins.d1 1,
                Action.analog_write pins.p1 (invertedDuty speed maxPwm)])
  else (s, [])

/-- Pin assignment of a DDP motor: one PWM pin and two direction pins. -/
structure DDPPins where
  p1 : ℕ
  d1 : ℕ
  d2 : ℕ
  deriving DecidableEq, Repr

/-- Model of `DDPMotor.init_motors`: all three pin modes configured together, once. -/
def DDPMotor.init_motors (pins : DDPPins) (s : MotorState) :
    MotorState × List Action :=
  if !s.initialized then
    ({ s with initialized := true },
      [Action.set_pin_mode_analog_output pins.p1,
       Action.set_pin_mode_digital_output pins.d1,
       Action.set_pin_mode_digital_output pins.d2])
  else (s, [])

/-- Model of `DDPMotor.set_speed`: both direction pins are first driven low, then the
PWM duty is written, then the single direction pin of the commanded direction
is driven high. -/
def DDPMotor.set_speed (pins : DDPPins) (maxPwm : ℤ) (s : MotorState) (speed : ℤ) :
    MotorState × List Action :=
  if s.prev_motor_speed ≠ speed then
    let r := DDPMotor.init_motors pins s
    if speed ≥ 0 then
      ({ r.1 with prev_motor_speed := speed },
        r.2 ++ [Action.digital_write pins.d1 0,
                Action.digital_write pins.d2 0,
                Action.analog_write pins.p1 (scaledDuty speed maxPwm),
                Action.digital_write pins.d2 1])
    else
      ({ r.1 with prev_motor_speed := speed },
        r.2 ++ [Action.digital_write pins.d2 0,
                Action.digital_write pins.d1 0,
                Action.analog_write pins.p1 (scaledDuty |speed| maxPwm),
                Action.digital_write pins.d1 1])
  else (s, [])

end Motors

section DDPSemantics

/-- Electrical state of the two DDP direction pins: the value last written to
each (0 = low, non-zero = high). -/
structure DirPins where
  d1 : ℤ
  d2 : ℤ
  deriving DecidableEq, Repr

/-- Effect of one board action on the direction-pin state: only digital
writes to `d1` or `d2` change it. -/
def applyAct (pins : DDPPins) (ps : DirPins) : Action → DirPins
  | Action.digital_write p v =>
    ⟨if p = pins.d1 then v else ps.d1,
     if p = pins.d2 then v else ps.d2⟩
  | _ => ps

/-- All pin states observed while a list of actions executes, the state
before the first action included. -/
def scanStates (pins : DDPPins) (ps : DirPins) : List Action → List DirPins
  | [] => [ps]
  | a :: rest => ps :: scanStates pins (applyAct pins ps a) rest

/-- The pin state after a list of actions has executed. -/
def applyActs (pins : DDPPins) (ps : DirPins) (acts : List Action) : DirPins :=
  acts.foldl (applyAct pins) ps

/-- Every instantaneous direction-pin state observed while a sequence of
`DDPMotor.set_speed` calls executes, starting from motor state `s` and pin
state `ps`. -/
def DDPMotor.runStates (pins : DDPPins) (maxPwm : ℤ) :
    MotorState → DirPins → List ℤ → List DirPins
  | _, ps, [] => [ps]
  | s, ps, speed :: speeds =>
    let r := DDPMotor.set_speed pins maxPwm s speed
    scanStates pins ps r.2 ++
      DDPMotor.runStates pins maxPwm r.1 (applyActs pins ps r.2) speeds

/-- A digital write driving direction pin `d1` or `d2` low. -/
def Action.isDirLow (pins : DDPPins) : Action → Prop
  | Action.digital_write p v => (p = pins.d1 ∨ p = pins.d2) ∧ v = 0
  | _ => False

/-- A digital write driving direction pin `d1` or `d2` high. -/
def Action.isDirHigh (pins : DDPPins) : Action → Prop
  | Action.digital_write p v => (p = pins.d1 ∨ p = pins.d2) ∧ v ≠ 0
  | _ => False

end DDPSemantics

section RateGovernor

/-- Rate-limiting state of `SensorMonitor`: `max_freq` (−1 is the unthrottled
sentinel) and `last_publish_time` in milliseconds (−1 means unset). -/
structure RateState where
  max_freq : ℚ
  last_publish_time : ℚ
  deriving DecidableEq, Repr

/-- Model of `SensorMonitor.__init__`: sets `max_freq` from the sensor configuration
(default 10) and `last_publish_time` to −1. -/
def SensorMonitor.initState (cfgMaxFreq : Option ℚ) : RateState :=
  ⟨cfgMaxFreq.getD 10, -1⟩

/-- Model of `EncoderSensorMonitor.__init__`: runs the base-class configuration and then
overrides `max_freq` to −1. -/
def EncoderSensorMonitor.initState (cfgMaxFreq : Option ℚ) : RateState :=
  { SensorMonitor.initState cfgMaxFreq with max_freq := -1 }

/-- Model of `SensorMonitor.publish`: returns the new state and how many times
`publish_imp` forwarded the reading during this call.  Note the second guard
in the throttled branch is an `if`, not an `elif`, exactly as in the source. -/
def SensorMonitor.publish (s : RateState) (now_millis : ℚ) : RateState × ℕ :=
  if s.max_freq = -1 then (s, 1)
  else
    let r : RateState × ℕ :=
      if s.last_publish_time = -1 then
        ({ s with last_publish_time := now_millis }, 1)
      else (s, 0)
    if now_millis - r.1.last_publish_time ≥ 1000 / s.max_freq then
      ({ r.1 with last_publish_time := r.1.last_publish_time + 1000 / s.max_freq },
        r.2 + 1)
    else r

end RateGovernor

section Keypad

/-- The analog-ladder decoding in `KeypadMonitor.publish_data`: thresholds
found on a 12-bit ADC, rescaled to the configured ADC bit depth; bands tried
in order with strict less-than, first match wins, otherwise the empty key. -/
def keyFromAnalog (adcBits : ℕ) (v : ℚ) : String :=
  if v < 70 / 4096 * 2 ^ adcBits then "left"
  else if v < 230 / 4096 * 2 ^ adcBits then "up"
  else if v < 410 / 4096 * 2 ^ adcBits then "down"
  else if v < 620 / 4096 * 2 ^ adcBits then "right"
  else if v < 880 / 4096 * 2 ^ adcBits then "enter"
  else ""

/-- Debounce state of `KeypadMonitor`: the previously decoded raw key, the
debounce-timer start, and the previously published debounced key. -/
structure KeypadState where
  last_key : String
  last_debounce_time : ℚ
  last_debounced_key : String
  deriving DecidableEq, Repr

/-- Fresh `KeypadMonitor` debounce state. -/
def KeypadMonitor.initState : KeypadState := ⟨"", 0, ""⟩

/-- One step of `KeypadMonitor.publish_data` on a sample with analog value `v`
and timestamp `t` (seconds): returns the new state, the published debounced
key, and the optional one-shot pressed event (carrying the previous debounced
key). -/
def KeypadMonitor.publish_data (adcBits : ℕ) (s : KeypadState) (v t : ℚ) :
    KeypadState × String × Option String :=
  let key := keyFromAnalog adcBits v
  let ldt := if s.last_key ≠ key then t else s.last_debounce_time
  let debounced_key := if t - ldt > 1 / 10 then key else ""
  let pressed :=
    if s.last_debounced_key ≠ "" ∧ s.last_debounced_key ≠ debounced_key then
      some s.last_debounced_key
    else none
  (⟨key, ldt, debounced_key⟩, debounced_key, pressed)

end Keypad

section Display

/-- Bytes of one `write_cmd_async` I2C transaction: the command marker `0x80`
followed by the command byte. -/
def Oled.write_cmd_bytes (cmd : ℕ) : List ℕ :=
  [0x80, cmd]

/-- Bytes of framebuffer chunk `i` in `write_framebuf_async`: the slice
`buffer[i*16 : (i+1)*16 + 1]` with its first byte overwritten by the data
marker `0x40`, so the data marker followed by 16 pixel bytes. -/
def Oled.chunk_bytes (buffer : List ℕ) (i : ℕ) : List ℕ :=
  0x40 :: ((buffer.drop (16 * i + 1)).take 16)

/-- The column-window shift of `show_async`: widths 64 and 72 are shifted by
32 and 28 respectively, width 128 by 0. -/
def Oled.colShift (width : ℕ) : ℕ :=
  if width = 64 then 32 else if width = 72 then 28 else 0

/-- The batch of I2C transactions issued by one `show_async` flush (in the
order the coroutines are created): six addressing-window commands, then the
64 framebuffer chunk writes of `write_framebuf_async`. -/
def Oled.show_async_tx (width pages : ℕ) (buffer : List ℕ) : List (List ℕ) :=
  [Oled.write_cmd_bytes 0x21,
   Oled.write_cmd_bytes (0 + Oled.colShift width),
   Oled.write_cmd_bytes (width - 1 + Oled.colShift width),
   Oled.write_cmd_bytes 0x22,
   Oled.write_cmd_bytes 0,
   Oled.write_cmd_bytes (pages - 1)] ++
  (List.range 64).map (Oled.chunk_bytes buffer)

/-- One bus transaction of a flush, for the failure model: `checks_flag` says
whether the coroutine re-checks `self.failed` before writing
(`write_cmd_async` does; the chunk task in `write_framebuf_async` does not),
and `result` is the acknowledgment the bus would return for it
(`none` models the Arduino transport that never acknowledges). -/
structure FlushStep where
  checks_flag : Bool
  result : Option Bool
  deriving DecidableEq, Repr

/-- The steps of one `show_async` flush given the per-transaction bus results:
the first six transactions are `write_cmd_async` calls (flag-checking), the
rest are framebuffer chunk tasks (not flag-checking). -/
def Oled.flushSteps (results : List (Option Bool)) : List FlushStep :=
  (results.take 6).map (fun r => ⟨true, r⟩) ++
  (results.drop 6).map (fun r => ⟨false, r⟩)

/-- Run the transactions of a flush in creation order, threading the `failed`
flag: a flag-checking step is skipped once `failed` holds; an issued step
latches `failed` when the bus reports `False`.  Returns the final flag and
the number of transactions actually issued on the bus. -/
def Oled.runFlush (failed : Bool) : List FlushStep → Bool × ℕ
  | [] => (failed, 0)
  | step :: rest =>
    if step.checks_flag && failed then Oled.runFlush failed rest
    else
      let failed1 := failed || (step.result == some false)
      let r := Oled.runFlush failed1 rest
      (r.1, r.2 + 1)

/-- Model of `Oled.set_oled_image_service`: when `failed` is latched it returns the
failure response without touching the bus; otherwise it runs the flush
(which may latch `failed`) and returns success.  Result: new `failed` flag,
service response, number of bus transactions issued. -/
def Oled.set_oled_image_service (failed : Bool) (results : List (Option Bool)) :
    Bool × Bool × ℕ :=
  if failed then (failed, false, 0)
  else
    let r := Oled.runFlush false (Oled.flushSteps results)
    (r.1, true, r.2)

end Display

section PinValue

/-- The tail of `handle_get_pin_value` after the 5-second wait loop has ended,
given the contents of the global `pin_values` dict at that point.  The
source first computes `value` as the stored value or the −1 sentinel, then
unconditionally re-executes `value = pin_values[pin]`, which raises `KeyError`
when the pin never reported back. -/
def handle_get_pin_value_after_wait (pin_values : ℕ → Option ℤ) (pin : ℕ) :
    Except String ℤ :=
  let _value : ℤ :=
    match pin_values pin with
    | some v => v
    | none => -1
  match pin_values pin with
  | some v => Except.ok v
  | none => Except.error "KeyError"

end PinValue

/-- The decoder the specification describes: ordered bands `left`, `up`,
`down`, `right`, `enter` with 12-bit reference thresholds 70, 230, 410, 620,
880, each rescaled as `threshold / 4096 * 2 ^ adcBits`; the first band whose
threshold strictly exceeds the sample wins, and no match yields the empty
key. -/
def specKeypadBands : List (ℚ × String) :=
  [(70, "left"), (230, "up"), (410, "down"), (620, "right"), (880, "enter")]

/-- First-match band lookup, as worded in the specification. -/
def specKeyFromAnalog (adcBits : ℕ) (v : ℚ) : String :=
  match specKeypadBands.find? (fun b => decide (v < b.1 / 4096 * 2 ^ adcBits)) with
  | some b => b.2
  | none => ""

/-! ## Claims -/

/-- C9: for every motor variant (PP, DP, DDP), `set_speed` with a target equal
to the previously commanded speed is an idempotent no-op: no pin-mode call, no
pin write, and the motor state is unchanged. -/
theorem motors_set_speed_idempotent (ppPins : PPPins) (dpPins : DPPins)
    (ddpPins : DDPPins) (maxPwm : ℤ) (s : MotorState) :
    PPMotor.set_speed ppPins maxPwm s s.prev_motor_speed = (s, []) ∧
    DPMotor.set_speed dpPins maxPwm s s.prev_motor_speed = (s, []) ∧
    DDPMotor.set_speed ddpPins maxPwm s s.prev_motor_speed = (s, []) := by
  refine ⟨?_, ?_, ?_⟩ <;>
    simp [PPMotor.set_speed, DPMotor.set_speed, DDPMotor.set_speed]

/-- C3: when the requested pin never reports a value, the code after the wait
loop does not return the −1 sentinel: the unconditional re-read
`value = pin_values[pin]` raises `KeyError`.  This contradicts the claimed
(and commented) sentinel-only error reporting. -/
theorem get_pin_value_timeout_raises :
    handle_get_pin_value_after_wait (fun _ => none) 13 = Except.error "KeyError" :=
  rfl

/-- C5: keypad decoding is a pure function of the scaled sample equal to the
spec's ordered first-match band lookup over the rescaled 12-bit thresholds,
and on a 12-bit ADC raw 50 decodes to `left` and raw 150 to `up`. -/
theorem keypad_decode_bands (adcBits : ℕ) (v : ℚ) :
    keyFromAnalog adcBits v = specKeyFromAnalog adcBits v ∧
    keyFromAnalog 12 50 = "left" ∧ keyFromAnalog 12 150 = "up" := by
  refine ⟨?_, by norm_num [keyFromAnalog], by norm_num [keyFromAnalog]⟩
  simp only [keyFromAnalog, specKeyFromAnalog, specKeypadBands, List.find?]
  split_ifs with h1 h2 h3 h4 h5
  · simp [decide_eq_true h1]
  · simp [decide_eq_false h1, decide_eq_true h2]
  · simp [decide_eq_false h1, decide_eq_false h2, decide_eq_true h3]
  · simp [decide_eq_false h1, decide_eq_false h2, decide_eq_false h3,
      decide_eq_true h4]
  · simp [decide_eq_false h1, decide_eq_false h2, decide_eq_false h3,
      decide_eq_false h4, decide_eq_true h5]
  · simp [decide_eq_false h1, decide_eq_false h2, decide_eq_false h3,
      decide_eq_false h4, decide_eq_false h5]

/-- C10: the encoder monitor constructor overrides `max_freq` to the
unthrottled sentinel −1 after the base-class configuration, and with
`max_freq = −1` every reading is forwarded with the state unchanged. -/
theorem encoder_bypasses_rate_limit (cfgMaxFreq : Option ℚ) (s : RateState)
    (now : ℚ) (hs : s.max_freq = -1) :
    (EncoderSensorMonitor.initState cfgMaxFreq).max_freq = -1 ∧
    SensorMonitor.publish s now = (s, 1) := by
  refine ⟨rfl, ?_⟩
  simp [SensorMonitor.publish, hs]

/-- Witness for C10 at a concrete configuration and state. -/
theorem encoder_bypasses_rate_limit_witness :
    (EncoderSensorMonitor.initState (some 25)).max_freq = -1 ∧
    SensorMonitor.publish ⟨-1, 5⟩ 7 = (⟨-1, 5⟩, 1) :=
  encoder_bypasses_rate_limit (some 25) ⟨-1, 5⟩ 7 rfl

/-- C2: with a positive `max_freq = f`, the first `publish` call (sentinel
`last_publish_time = −1`) forwards exactly once and sets `last_publish_time`
to `now`; a later call that is due (`now − last ≥ 1000/f`) forwards exactly
once and advances `last_publish_time` by exactly `1000/f` (not to `now`); a
later call that is not due forwards nothing; and with the unthrottled
sentinel `max_freq = −1` every call forwards. -/
theorem rate_governor_contract (f now last now2 last2 : ℚ) (hf : 0 < f)
    (hlast : last ≠ -1) (hdue : now - last ≥ 1000 / f)
    (hlast2 : last2 ≠ -1) (hnot : ¬ (now2 - last2 ≥ 1000 / f)) :
    SensorMonitor.publish ⟨f, -1⟩ now = (⟨f, now⟩, 1) ∧
    SensorMonitor.publish ⟨f, last⟩ now = (⟨f, last + 1000 / f⟩, 1) ∧
    SensorMonitor.publish ⟨f, last2⟩ now2 = (⟨f, last2⟩, 0) ∧
    SensorMonitor.publish ⟨-1, last⟩ now = (⟨-1, last⟩, 1) := by
  have hfne : f ≠ -1 := by linarith
  refine ⟨?_, ?_, ?_, ?_⟩
  · simp [SensorMonitor.publish, hfne]
    exact hf
  · simp [SensorMonitor.publish, hfne, hlast, hdue]
  · simp [SensorMonitor.publish, hfne, hlast2, hnot]
  · simp [SensorMonitor.publish]

/-- Witness for C2: `f = 10` (period 100 ms), a due call at `now = 200` with
`last = 50`, and an undue call at `now = 200` with `last = 150`. -/
theorem rate_governor_contract_witness :
    SensorMonitor.publish ⟨10, -1⟩ 200 = (⟨10, 200⟩, 1) ∧
    SensorMonitor.publish ⟨10, 50⟩ 200 = (⟨10, 50 + 1000 / 10⟩, 1) ∧
    SensorMonitor.publish ⟨10, 150⟩ 200 = (⟨10, 150⟩, 0) ∧
    SensorMonitor.publish ⟨-1, 50⟩ 200 = (⟨-1, 50⟩, 1) :=
  rate_governor_contract 10 200 50 200 150 (by norm_num) (by norm_num)
    (by norm_num) (by norm_num) (by norm_num)

/-- C6: the debounced key changes only after the raw key has been stable past
the 100 ms window: a raw key differing from the previous one resets the
debounce timer to the sample's timestamp (first conjunct) while an unchanged
raw key keeps it (second); the published debounced key equals the raw key
exactly when the elapsed time since the last reset exceeds 100 ms and is the
empty key otherwise (third); a non-empty published key implies the raw key
was unchanged and stable for more than 100 ms (fourth); and the stored
`last_debounced_key` is the published key (fifth). -/
theorem keypad_debounce_invariant (adcBits : ℕ) (s s2 s3 : KeypadState)
    (v t v2 t2 v3 t3 : ℚ)
    (hdiff : keyFromAnalog adcBits v ≠ s.last_key)
    (hsame : keyFromAnalog adcBits v2 = s2.last_key)
    (hne : (KeypadMonitor.publish_data adcBits s3 v3 t3).2.1 ≠ "") :
    (KeypadMonitor.publish_data adcBits s v t).1.last_debounce_time = t ∧
    (KeypadMonitor.publish_data adcBits s2 v2 t2).1.last_debounce_time
        = s2.last_debounce_time ∧
    (∀ (s4 : KeypadState) (v4 t4 : ℚ),
      (KeypadMonitor.publish_data adcBits s4 v4 t4).2.1 =
        if t4 - (KeypadMonitor.publish_data adcBits s4 v4 t4).1.last_debounce_time
            > 1 / 10
        then keyFromAnalog adcBits v4 else "") ∧
    ((KeypadMonitor.publish_data adcBits s3 v3 t3).2.1 = keyFromAnalog adcBits v3 ∧
     keyFromAnalog adcBits v3 = s3.last_key ∧
     t3 - s3.last_debounce_time > 1 / 10) ∧
    (∀ (s4 : KeypadState) (v4 t4 : ℚ),
      (KeypadMonitor.publish_data adcBits s4 v4 t4).1.last_debounced_key
        = (KeypadMonitor.publish_data adcBits s4 v4 t4).2.1) := by
  refine ⟨?_, ?_, ?_, ?_, ?_⟩
  · simp [KeypadMonitor.publish_data, Ne.symm hdiff]
  · simp [KeypadMonitor.publish_data, hsame]
  · intro s4 v4 t4
    simp [KeypadMonitor.publish_data]
  · by_cases hc : s3.last_key = keyFromAnalog adcBits v3
    · by_cases hgt : t3 - s3.last_debounce_time > 1 / 10
      · refine ⟨?_, hc.symm, hgt⟩
        simp [KeypadMonitor.publish_data, hc]
        intro h
        exfalso
        linarith
      · exfalso
        apply hne
        norm_num [KeypadMonitor.publish_data, hc, hgt]
    · exfalso
      apply hne
      norm_num [KeypadMonitor.publish_data, hc]
  · intro s4 v4 t4
    simp [KeypadMonitor.publish_data]

/-- Witness for C6 on a 12-bit ADC: a fresh state with a new `left` sample, a
state already holding `left`, and a state where `left` has been stable for a
full second. -/
theorem keypad_debounce_invariant_witness :
    (KeypadMonitor.publish_data 12 ⟨"", 0, ""⟩ 50 1).1.last_debounce_time = 1 ∧
    (KeypadMonitor.publish_data 12 ⟨"left", 0, ""⟩ 50 2).1.last_debounce_time = 0 ∧
    (∀ (s4 : KeypadState) (v4 t4 : ℚ),
      (KeypadMonitor.publish_data 12 s4 v4 t4).2.1 =
        if t4 - (KeypadMonitor.publish_data 12 s4 v4 t4).1.last_debounce_time > 1 / 10
        then keyFromAnalog 12 v4 else "") ∧
    ((KeypadMonitor.publish_data 12 ⟨"left", 0, ""⟩ 50 1).2.1 = keyFromAnalog 12 50 ∧
     keyFromAnalog 12 50 = "left" ∧
     (1 : ℚ) - 0 > 1 / 10) ∧
    (∀ (s4 : KeypadState) (v4 t4 : ℚ),
      (KeypadMonitor.publish_data 12 s4 v4 t4).1.last_debounced_key
        = (KeypadMonitor.publish_data 12 s4 v4 t4).2.1) :=
  keypad_debounce_invariant 12 ⟨"", 0, ""⟩ ⟨"left", 0, ""⟩ ⟨"left", 0, ""⟩
    50 1 50 2 50 1 (by norm_num [keyFromAnalog]; decide)
    (by norm_num [keyFromAnalog])
    (by norm_num [KeypadMonitor.publish_data, keyFromAnalog]; decide)

/-- C7: a DP motor driven forward, then to 0, then into reverse configures
pin modes exactly once, on the first forward call, and never again; and every
reverse call writes the direction pin high and a PWM duty of
`max_pwm − min(|speed|, 100) / 100 · max_pwm` (truncated), the inverse of the
forward curve. -/
theorem dp_motor_forward_zero_reverse (pins : DPPins) (maxPwm : ℤ) (f r r5 : ℤ)
    (s5 : MotorState) (hf : 0 < f) (hr : r < 0) (h5 : r5 < 0)
    (hprev5 : s5.prev_motor_speed ≠ r5) :
    DPMotor.set_speed pins maxPwm Motor.initState f =
      (⟨f, true⟩,
        [Action.set_pin_mode_digital_output pins.d1,
         Action.set_pin_mode_analog_output pins.p1,
         Action.digital_write pins.d1 0,
         Action.analog_write pins.p1 (scaledDuty f maxPwm)]) ∧
    DPMotor.set_speed pins maxPwm ⟨f, true⟩ 0 =
      (⟨0, true⟩,
        [Action.digital_write pins.d1 0, Action.analog_write pins.p1 0]) ∧
    DPMotor.set_speed pins maxPwm ⟨0, true⟩ r =
      (⟨r, true⟩,
        [Action.digital_write pins.d1 1,
         Action.analog_write pins.p1
           (pyInt ((maxPwm : ℚ) - (min |r| 100 : ℤ) / 100 * (maxPwm : ℚ)))]) ∧
    DPMotor.set_speed pins maxPwm s5 r5 =
      ({ s5 with prev_motor_speed := r5, initialized := true },
        (if s5.initialized then []
         else [Action.set_pin_mode_analog_output pins.p1,
               Action.set_pin_mode_digital_output pins.d1]) ++
        [Action.digital_write pins.d1 1,
         Action.analog_write pins.p1 (invertedDuty r5 maxPwm)]) := by
  have hf0 : (0 : ℤ) ≠ f := by omega
  have hr0 : r ≠ 0 := by omega
  have h0r : (0 : ℤ) ≠ r := by omega
  have hrneg : ¬ (0 < r) := by omega
  have h50 : r5 ≠ 0 := by omega
  have h5neg : ¬ (0 < r5) := by omega
  refine ⟨?_, ?_, ?_, ?_⟩
  · simp [DPMotor.set_speed, DPMotor.init_motors, Motor.initState, hf0, hf.ne',
      hf, hf.le, invertedDuty]
  · simp [DPMotor.set_speed, hf.ne']
  · simp [DPMotor.set_speed, DPMotor.init_motors, h0r, hr0, hrneg, hr, hr.le,
      invertedDuty]
  · cases hinit : s5.initialized <;>
      simp [DPMotor.set_speed, DPMotor.init_motors, hprev5, h50, h5neg, h5,
        h5.le, hinit, invertedDuty]

/-- Witness for C7 with pins `p1 = 1`, `d1 = 2`, `max_pwm = 255`, forward 40
and reverse −40. -/
theorem dp_motor_forward_zero_reverse_witness :
    DPMotor.set_speed ⟨1, 2⟩ 255 Motor.initState 40 =
      (⟨40, true⟩,
        [Action.set_pin_mode_digital_output 2,
         Action.set_pin_mode_analog_output 1,
         Action.digital_write 2 0,
         Action.analog_write 1 (scaledDuty 40 255)]) ∧
    DPMotor.set_speed ⟨1, 2⟩ 255 ⟨40, true⟩ 0 =
      (⟨0, true⟩, [Action.digital_write 2 0, Action.analog_write 1 0]) ∧
    DPMotor.set_speed ⟨1, 2⟩ 255 ⟨0, true⟩ (-40) =
      (⟨-40, true⟩,
        [Action.digital_write 2 1,
         Action.analog_write 1
           (pyInt ((255 : ℚ) - (min |(-40 : ℤ)| 100 : ℤ) / 100 * (255 : ℚ)))]) ∧
    DPMotor.set_speed ⟨1, 2⟩ 255 ⟨0, true⟩ (-40) =
      ({ (⟨0, true⟩ : MotorState) with prev_motor_speed := -40, initialized := true },
        (if (⟨0, true⟩ : MotorState).initialized then []
         else [Action.set_pin_mode_analog_output 1,
               Action.set_pin_mode_digital_output 2]) ++
        [Action.digital_write 2 1,
         Action.analog_write 1 (invertedDuty (-40) 255)]) :=
  dp_motor_forward_zero_reverse ⟨1, 2⟩ 255 40 (-40) (-40) ⟨0, true⟩
    (by norm_num) (by norm_num) (by norm_num) (by norm_num)

/-- Auxiliary: `any` over a mapped list tests the composed predicate. -/
theorem anyMap {α β : Type} (f : α → β) (p : β → Bool) (l : List α) :
    (l.map f).any p = l.any (fun a => p (f a)) := by
  induction l with
  | nil => rfl
  | cons a l ih => simp [ih]

/-- The final `failed` flag of a flush run equals the initial flag joined with
whether any step's bus result reported `False`: the flag is latched by a
failing transaction and never cleared. -/
theorem Oled.runFlush_fst (failed : Bool) (steps : List FlushStep) :
    (Oled.runFlush failed steps).1
      = (failed || steps.any (fun st => st.result == some false)) := by
  induction steps generalizing failed with
  | nil => simp [Oled.runFlush]
  | cons step rest ih =>
    simp only [Oled.runFlush]
    split
    · next h =>
      rw [Bool.and_eq_true] at h
      rcases h with ⟨-, hf⟩
      subst hf
      simp [ih]
    · next h =>
      simp [ih, Bool.or_assoc]

/-- The flush steps fail exactly when some bus result is `False`, whichever
side of the 6-command boundary it is on. -/
theorem Oled.flushSteps_any (results : List (Option Bool)) :
    (Oled.flushSteps results).any (fun st => st.result == some false)
      = results.any (fun r => r == some false) := by
  unfold Oled.flushSteps
  rw [List.any_append, anyMap, anyMap]
  dsimp only
  rw [← List.any_append, List.take_append_drop]

/-- C4: the display driver's `failed` flag is latched exactly when some issued
bus transaction of a flush reports failure (first conjunct); a driver whose
flag is set answers any set-image call with the failure response, issues zero
bus transactions and keeps the flag (second); hence after a flush in which a
transaction failed, every subsequent set-image call returns failure without
touching the bus (third). -/
theorem oled_failure_latched (failed : Bool) (results results2 : List (Option Bool))
    (hfail : results.any (fun r => r == some false) = true) :
    ((Oled.set_oled_image_service failed results).1
        = (failed || results.any (fun r => r == some false))) ∧
    (Oled.set_oled_image_service true results2 = (true, false, 0)) ∧
    (Oled.set_oled_image_service
        (Oled.set_oled_image_service false results).1 results2
      = (true, false, 0)) := by
  have hkey : ∀ b : Bool, (Oled.set_oled_image_service b results).1
      = (b || results.any (fun r => r == some false)) := by
    intro b
    cases b with
    | true => simp [Oled.set_oled_image_service]
    | false =>
      simp [Oled.set_oled_image_service, Oled.runFlush_fst, Oled.flushSteps_any]
  refine ⟨hkey failed, by simp [Oled.set_oled_image_service], ?_⟩
  rw [hkey false]
  simp [hfail, Oled.set_oled_image_service]

/-- Witness for C4: a flush whose very first transaction is refused by the
bus latches the flag, and the next set-image call is a transactionless
failure. -/
theorem oled_failure_latched_witness :
    ((Oled.set_oled_image_service false [some false, some true]).1
        = (false || [some false, some true].any (fun r => r == some false))) ∧
    (Oled.set_oled_image_service true [some true] = (true, false, 0)) ∧
    (Oled.set_oled_image_service
        (Oled.set_oled_image_service false [some false, some true]).1 [some true]
      = (true, false, 0)) :=
  oled_failure_latched false [some false, some true] [some true] (by decide)

/-- Auxiliary: joining the 16-byte pixel slices taken at offsets
`16 i + 1` for `i < n` reproduces the first `16 n` bytes after the reserved
leading byte. -/
theorem chunksJoinOffset (l : List ℕ) (n : ℕ) :
    ((List.range n).map (fun i => (l.drop (16 * i + 1)).take 16)).flatten
      = (l.drop 1).take (16 * n) := by
  induction n with
  | zero => simp
  | succ n ih =>
    rw [List.range_succ, List.map_append, List.flatten_append, ih]
    simp only [List.map_cons, List.map_nil, List.flatten_cons, List.flatten_nil,
      List.append_nil]
    rw [show 16 * (n + 1) = 16 * n + 16 by ring, List.take_add]
    congr 1
    rw [List.drop_drop, Nat.add_comm 1 (16 * n)]

/-- C8: for the instantiated 128×64 display (buffer of `64/8*128 + 1` bytes,
the extra byte being the reserved marker slot), a flush issues exactly the
six-command addressing-window preamble `0x21, 0, 127, 0x22, 0, 7` each under
the `0x80` command marker, followed by `ceil(B/C) = (1024 + 16 − 1)/16 = 64`
chunk writes of 1 marker byte plus 16 pixel bytes under the distinct `0x40`
data marker, and the chunks' pixel parts cover the framebuffer exactly once. -/
theorem oled_flush_protocol (buffer : List ℕ)
    (hlen : buffer.length = 64 / 8 * 128 + 1) :
    (Oled.show_async_tx 128 (64 / 8) buffer).take 6 =
      [[0x80, 0x21], [0x80, 0], [0x80, 127], [0x80, 0x22], [0x80, 0], [0x80, 7]] ∧
    ((Oled.show_async_tx 128 (64 / 8) buffer).drop 6).length
      = (buffer.length - 1 + 16 - 1) / 16 ∧
    (∀ tx ∈ (Oled.show_async_tx 128 (64 / 8) buffer).drop 6,
      tx.length = 17 ∧ tx.head? = some 0x40) ∧
    (0x40 : ℕ) ≠ 0x80 ∧
    (((Oled.show_async_tx 128 (64 / 8) buffer).drop 6).map (List.drop 1)).flatten
      = buffer.drop 1 := by
  have hdrop : (Oled.show_async_tx 128 (64 / 8) buffer).drop 6
      = (List.range 64).map (Oled.chunk_bytes buffer) := by
    norm_num [Oled.show_async_tx]
  refine ⟨?_, ?_, ?_, by norm_num, ?_⟩
  · norm_num [Oled.show_async_tx, Oled.write_cmd_bytes, Oled.colShift]
  · rw [hlen]
    norm_num [Oled.show_async_tx]
  · intro tx htx
    rw [hdrop] at htx
    rcases List.mem_map.mp htx with ⟨i, hi, rfl⟩
    rw [List.mem_range] at hi
    constructor
    · simp [Oled.chunk_bytes, hlen]
      omega
    · rfl
  · rw [hdrop, List.map_map]
    have hfun : (List.drop 1 ∘ Oled.chunk_bytes buffer)
        = (fun i => (buffer.drop (16 * i + 1)).take 16) := by
      funext i
      simp [Oled.chunk_bytes]
    rw [hfun, chunksJoinOffset]
    apply List.take_of_length_le
    simp [hlen]

/-- Witness for C8: the flush of an all-zero 1025-byte buffer. -/
theorem oled_flush_protocol_witness :
    (Oled.show_async_tx 128 (64 / 8) (List.replicate 1025 0)).take 6 =
      [[0x80, 0x21], [0x80, 0], [0x80, 127], [0x80, 0x22], [0x80, 0], [0x80, 7]] ∧
    ((Oled.show_async_tx 128 (64 / 8) (List.replicate 1025 0)).drop 6).length
      = ((List.replicate 1025 0 : List ℕ).length - 1 + 16 - 1) / 16 ∧
    (∀ tx ∈ (Oled.show_async_tx 128 (64 / 8) (List.replicate 1025 0)).drop 6,
      tx.length = 17 ∧ tx.head? = some 0x40) ∧
    (0x40 : ℕ) ≠ 0x80 ∧
    (((Oled.show_async_tx 128 (64 / 8) (List.replicate 1025 0)).drop 6).map
        (List.drop 1)).flatten
      = (List.replicate 1025 0 : List ℕ).drop 1 :=
  oled_flush_protocol (List.replicate 1025 0) (by rw [List.length_replicate])

/-- Auxiliary: `DDPMotor.init_motors` issues only pin-mode calls, never a
direction-pin write. -/
theorem DDPMotor.init_motors_no_dir (pins : DDPPins) (s : MotorState) :
    ∀ a ∈ (DDPMotor.init_motors pins s).2,
      ¬ Action.isDirHigh pins a ∧ ¬ Action.isDirLow pins a := by
  unfold DDPMotor.init_motors
  split <;> simp [Action.isDirHigh, Action.isDirLow]

/-- Auxiliary: one `DDPMotor.set_speed` call preserves the
at-most-one-direction-pin-high invariant at every intermediate instant and at
its end. -/
theorem DDPMotor.call_inv (pins : DDPPins) (maxPwm : ℤ) (s : MotorState)
    (sp : ℤ) (ps : DirPins) (hne : pins.d1 ≠ pins.d2)
    (h : ps.d1 = 0 ∨ ps.d2 = 0) :
    (∀ q ∈ scanStates pins ps (DDPMotor.set_speed pins maxPwm s sp).2,
      q.d1 = 0 ∨ q.d2 = 0) ∧
    ((applyActs pins ps (DDPMotor.set_speed pins maxPwm s sp).2).d1 = 0 ∨
     (applyActs pins ps (DDPMotor.set_speed pins maxPwm s sp).2).d2 = 0) := by
  by_cases hprev : s.prev_motor_speed = sp
  · constructor
    · intro q hq
      simp [DDPMotor.set_speed, hprev, scanStates] at hq
      subst hq
      exact h
    · simpa [DDPMotor.set_speed, hprev, applyActs] using h
  · by_cases hinit : s.initialized <;> by_cases hsgn : 0 ≤ sp <;>
      constructor <;>
      simp [DDPMotor.set_speed, DDPMotor.init_motors, hprev, hinit, hsgn,
        scanStates, applyActs, applyAct, hne, Ne.symm hne] <;>
      tauto

/-- C1: in every `DDPMotor.set_speed` call the issued action list splits into
a prefix with no direction-pin-high write followed by a suffix with no
direction-pin-low write — every pin driven low is written strictly before any
pin driven high — and consequently, along any sequence of `set_speed` calls
started from both direction pins low, no observed instant has both direction
pins high. -/
theorem ddp_dir_pins_never_both_high (pins : DDPPins) (maxPwm : ℤ)
    (s : MotorState) (sp : ℤ) (speeds : List ℤ) (hne : pins.d1 ≠ pins.d2) :
    (∃ l1 l2, (DDPMotor.set_speed pins maxPwm s sp).2 = l1 ++ l2 ∧
      (∀ a ∈ l1, ¬ Action.isDirHigh pins a) ∧
      (∀ a ∈ l2, ¬ Action.isDirLow pins a)) ∧
    (∀ q ∈ DDPMotor.runStates pins maxPwm Motor.initState ⟨0, 0⟩ speeds,
      ¬ (q.d1 ≠ 0 ∧ q.d2 ≠ 0)) := by
  constructor
  · by_cases hprev : s.prev_motor_speed = sp
    · exact ⟨[], [], by simp [DDPMotor.set_speed, hprev], by simp, by simp⟩
    · by_cases hsgn : 0 ≤ sp
      · refine ⟨(DDPMotor.init_motors pins s).2 ++
          [Action.digital_write pins.d1 0, Action.digital_write pins.d2 0,
           Action.analog_write pins.p1 (scaledDuty sp maxPwm)],
          [Action.digital_write pins.d2 1], ?_, ?_, ?_⟩
        · simp [DDPMotor.set_speed, hprev, hsgn]
        · intro a ha
          rcases List.mem_append.mp ha with hi | hl
          · exact (DDPMotor.init_motors_no_dir pins s a hi).1
          · simp only [List.mem_cons, List.mem_singleton] at hl
            rcases hl with rfl | rfl | rfl | hl
            · simp [Action.isDirHigh]
            · simp [Action.isDirHigh]
            · simp [Action.isDirHigh]
            · cases hl
        · intro a ha
          simp only [List.mem_singleton] at ha
          subst ha
          simp [Action.isDirLow]
      · refine ⟨(DDPMotor.init_motors pins s).2 ++
          [Action.digital_write pins.d2 0, Action.digital_write pins.d1 0,
           Action.analog_write pins.p1 (scaledDuty |sp| maxPwm)],
          [Action.digital_write pins.d1 1], ?_, ?_, ?_⟩
        · simp [DDPMotor.set_speed, hprev, hsgn]
        · intro a ha
          rcases List.mem_append.mp ha with hi | hl
          · exact (DDPMotor.init_motors_no_dir pins s a hi).1
          · simp only [List.mem_cons, List.mem_singleton] at hl
            rcases hl with rfl | rfl | rfl | hl
            · simp [Action.isDirHigh]
            · simp [Action.isDirHigh]
            · simp [Action.isDirHigh]
            · cases hl
        · intro a ha
          simp only [List.mem_singleton] at ha
          subst ha
          simp [Action.isDirLow]
  · have key : ∀ (speeds : List ℤ) (s0 : MotorState) (ps : DirPins),
        (ps.d1 = 0 ∨ ps.d2 = 0) →
        ∀ q ∈ DDPMotor.runStates pins maxPwm s0 ps speeds,
          q.d1 = 0 ∨ q.d2 = 0 := by
      intro speeds
      induction speeds with
      | nil =>
        intro s0 ps h q hq
        simp [DDPMotor.runStates] at hq
        subst hq
        exact h
      | cons v vs ih =>
        intro s0 ps h q hq
        simp only [DDPMotor.runStates, List.mem_append] at hq
        rcases hq with hq | hq
        · exact (DDPMotor.call_inv pins maxPwm s0 v ps hne h).1 q hq
        · exact ih _ _ (DDPMotor.call_inv pins maxPwm s0 v ps hne h).2 q hq
    intro q hq
    rcases key speeds Motor.initState ⟨0, 0⟩ (Or.inl rfl) q hq with h1 | h2
    · exact fun hc => hc.1 h1
    · exact fun hc => hc.2 h2

/-- Witness for C1: pins `p1 = 1`, `d1 = 2`, `d2 = 3` and the reference speed
sequence `[0, 40, −40, 0]`. -/
theorem ddp_dir_pins_never_both_high_witness :
    (∃ l1 l2, (DDPMotor.set_speed ⟨1, 2, 3⟩ 255 Motor.initState 40).2 = l1 ++ l2 ∧
      (∀ a ∈ l1, ¬ Action.isDirHigh ⟨1, 2, 3⟩ a) ∧
      (∀ a ∈ l2, ¬ Action.isDirLow ⟨1, 2, 3⟩ a)) ∧
    (∀ q ∈ DDPMotor.runStates ⟨1, 2, 3⟩ 255 Motor.initState ⟨0, 0⟩ [0, 40, -40, 0],
      ¬ (q.d1 ≠ 0 ∧ q.d2 ≠ 0)) :=
  ddp_dir_pins_never_both_high ⟨1, 2, 3⟩ 255 Motor.initState 40 [0, 40, -40, 0]
    (by norm_num)

end MirteTelemetrix
